import Mathlib

/-!
Shallow embedding of the Shopify payment-customization sample:
the checkout rule function (src/unnamed/part_000, the default-export
"Decision Function") and the create endpoint of the Express backend
(src/web/index.js).

JavaScript values produced by JSON.parse are modelled by the inductive
type `Json`; JavaScript numbers are modelled by `JSNum`, exact rationals
extended with NaN and the two infinities (IEEE-754 rounding of decimal
literals is abstracted away: JSON decimal literals are represented
exactly).  Exceptions (JSON.parse SyntaxError, property access on null)
are modelled with `Except JSError`.
-/

/-- Result of JSON.parse: null, booleans, numbers, strings, arrays and
objects (association lists; JSON.parse keeps the last duplicate key, we
represent parsed objects with unique keys and look up the first). -/
inductive Json where
  | null : Json
  | bool (b : Bool) : Json
  | num (q : ℚ) : Json
  | str (s : String) : Json
  | arr (elems : List Json) : Json
  | obj (fields : List (String × Json)) : Json

/-- Value of a JavaScript property access: a `Json` value or undefined. -/
inductive JSValue where
  | undefined : JSValue
  | val (j : Json) : JSValue

/-- Exceptions the modelled code can raise: the SyntaxError of
JSON.parse on malformed text (carrying the raw text) and the TypeError
of a property access on null (carrying the property name). -/
inductive JSError where
  | syntaxError (raw : String) : JSError
  | typeError (key : String) : JSError
deriving DecidableEq

/-- Truthiness of a `Json` value (JavaScript: null, false, 0 and ""
are falsy; every array and object is truthy). -/
def truthyJson : Json → Bool
  | .null => false
  | .bool b => b
  | .num q => if q = 0 then false else true
  | .str s => if s = "" then false else true
  | .arr _ => true
  | .obj _ => true

/-- Truthiness of a property-access result (undefined is falsy). -/
def truthy : JSValue → Bool
  | .undefined => false
  | .val j => truthyJson j

/-- Field lookup in a parsed-object association list (first match). -/
def lookupField : List (String × Json) → String → JSValue
  | [], _ => .undefined
  | (k, v) :: rest, key => if k = key then .val v else lookupField rest key

/-- Property access `o.key` on a JSON.parse result.  Throws TypeError on
null; on objects looks the key up; on arrays and strings only the
"length" property is populated (no numeric indices are accessed by the
embedded code); on other primitives every property is undefined. -/
def getProp : Json → String → Except JSError JSValue
  | .null, key => .error (.typeError key)
  | .obj fields, key => .ok (lookupField fields key)
  | .arr elems, key =>
      .ok (if key = "length" then .val (.num (elems.length : ℚ)) else .undefined)
  | .str s, key =>
      .ok (if key = "length" then .val (.num (s.length : ℚ)) else .undefined)
  | .bool _, _ => .ok .undefined
  | .num _, _ => .ok .undefined

/-- JavaScript numbers: NaN, +Infinity, -Infinity, or a finite value
(modelled as an exact rational). -/
inductive JSNum where
  | nan : JSNum
  | posInf : JSNum
  | negInf : JSNum
  | num (q : ℚ) : JSNum
deriving DecidableEq

/-- JavaScript strict-greater comparison `a > b` on numbers: any
comparison with NaN is false. -/
def jsGt : JSNum → JSNum → Bool
  | .nan, _ => false
  | _, .nan => false
  | .posInf, .posInf => false
  | .posInf, _ => true
  | .negInf, _ => false
  | .num _, .posInf => false
  | .num _, .negInf => true
  | .num a, .num b => if b < a then true else false

/-- JavaScript whitespace recognised by parseFloat / ToNumber (ASCII
white space and no-break space; other Unicode space code points are not
produced by the inputs modelled here). -/
def isJsWhitespace (c : Char) : Bool :=
  c == ' ' || c == '\t' || c == '\n' || c == '\r' || c == '\x0b' ||
    c == '\x0c' || c == '\xa0'

/-- Accumulating decimal-digit reader. -/
def digitsToNat (acc : Nat) : List Char → Nat
  | [] => acc
  | c :: rest => digitsToNat (acc * 10 + (c.toNat - 48)) rest

/-- Longest-prefix parse of a StrDecimalLiteral (without sign and
without the Infinity alternative): returns the exact value and the
unconsumed remainder, or none when no prefix matches.  An exponent
marker not followed by digits is left unconsumed, as in JavaScript
(parseFloat("1e") is 1, Number("1e") is NaN). -/
def parseDecimalPrefix (cs : List Char) : Option (ℚ × List Char) :=
  let (d1, rest) := cs.span Char.isDigit
  let (d2, rest2) :=
    match rest with
    | '.' :: r => r.span Char.isDigit
    | _ => (([] : List Char), rest)
  if d1.isEmpty && d2.isEmpty then none
  else
    let mantissa : ℚ :=
      (digitsToNat 0 d1 : ℚ) + (digitsToNat 0 d2 : ℚ) / (10 : ℚ) ^ d2.length
    let (e, rest3) : ℤ × List Char :=
      match rest2 with
      | c :: r =>
        if c == 'e' || c == 'E' then
          let (es, r2) : ℤ × List Char :=
            match r with
            | '-' :: t => (-1, t)
            | '+' :: t => (1, t)
            | t => (1, t)
          let (ed, r3) := r2.span Char.isDigit
          if ed.isEmpty then ((0 : ℤ), rest2)
          else (es * (digitsToNat 0 ed : ℤ), r3)
        else ((0 : ℤ), rest2)
      | [] => ((0 : ℤ), ([] : List Char))
    some (mantissa * (10 : ℚ) ^ e, rest3)

/-- JavaScript parseFloat: skip leading whitespace, optional sign, then
the longest StrDecimalLiteral prefix ("Infinity" allowed); NaN when no
prefix matches.  Trailing garbage is ignored. -/
def parseFloat (s : String) : JSNum :=
  let cs := s.toList.dropWhile isJsWhitespace
  let (neg, cs2) :=
    match cs with
    | '-' :: r => (true, r)
    | '+' :: r => (false, r)
    | _ => (false, cs)
  if "Infinity".toList.isPrefixOf cs2 then
    if neg then .negInf else .posInf
  else
    match parseDecimalPrefix cs2 with
    | none => .nan
    | some (q, _) => .num (if neg then -q else q)

/-- Value of a hexadecimal digit character. -/
def hexVal (c : Char) : Option Nat :=
  if c.isDigit then some (c.toNat - 48)
  else if 'a' ≤ c ∧ c ≤ 'f' then some (c.toNat - 87)
  else if 'A' ≤ c ∧ c ≤ 'F' then some (c.toNat - 55)
  else none

/-- Reads a whole digit string in base `b`; none on any invalid digit. -/
def digitsInBase (b acc : Nat) : List Char → Option Nat
  | [] => some acc
  | c :: rest =>
    match hexVal c with
    | some v => if v < b then digitsInBase b (acc * b + v) rest else none
    | none => none

/-- JavaScript ToNumber on a string (the whole trimmed string must be a
StrNumericLiteral): empty/whitespace-only is 0; signed Infinity;
0x/0o/0b radix literals; otherwise a full-string decimal literal. -/
def strToNumber (s : String) : JSNum :=
  let cs := s.toList.dropWhile isJsWhitespace
  let cs := (cs.reverse.dropWhile isJsWhitespace).reverse
  match cs with
  | [] => .num 0
  | '0' :: c :: rest =>
    if c == 'x' || c == 'X' then
      match rest, digitsInBase 16 0 rest with
      | _ :: _, some n => .num (n : ℚ)
      | _, _ => .nan
    else if c == 'o' || c == 'O' then
      match rest, digitsInBase 8 0 rest with
      | _ :: _, some n => .num (n : ℚ)
      | _, _ => .nan
    else if c == 'b' || c == 'B' then
      match rest, digitsInBase 2 0 rest with
      | _ :: _, some n => .num (n : ℚ)
      | _, _ => .nan
    else
      let (neg, cs2) :=
        match cs with
        | '-' :: r => (true, r)
        | '+' :: r => (false, r)
        | _ => (false, cs)
      if cs2 == "Infinity".toList then if neg then .negInf else .posInf
      else
        match parseDecimalPrefix cs2 with
        | some (q, []) => .num (if neg then -q else q)
        | _ => .nan
  | _ =>
    let (neg, cs2) :=
      match cs with
      | '-' :: r => (true, r)
      | '+' :: r => (false, r)
      | _ => (false, cs)
    if cs2 == "Infinity".toList then if neg then .negInf else .posInf
    else
      match parseDecimalPrefix cs2 with
      | some (q, []) => .num (if neg then -q else q)
      | _ => .nan

/-- Multiplicity of the prime `p` in `n`, computed with explicit fuel. -/
def factorCount (p : Nat) : Nat → Nat → Nat
  | 0, _ => 0
  | fuel + 1, n =>
    if 2 ≤ p ∧ n ≠ 0 ∧ n % p = 0 then factorCount p fuel (n / p) + 1 else 0

/-- Inserts a decimal point `k` digits from the right of a digit string,
zero-padding so an integer part remains ("5", 2 gives "0.05"). -/
def withPoint (digits : String) (k : Nat) : String :=
  if k = 0 then digits
  else
    let ds := digits.toList
    let padded := List.replicate (k + 1 - ds.length) '0' ++ ds
    String.mk (padded.take (padded.length - k)) ++ "." ++
      String.mk (padded.drop (padded.length - k))

/-- JavaScript Number-to-string for the finite values arising here.
Values coming from JSON decimal literals have denominators dividing a
power of ten and print as exact decimals (JS prints the shortest
round-tripping decimal, which for such literals is the literal itself;
the exponent notation JS uses for very small/large magnitudes is not
modelled — no such value is produced by the embedded code).  Other
rationals cannot arise from JSON.parse; they get a fraction rendering. -/
def ratToString (q : ℚ) : String :=
  let sign := if q < 0 then "-" else ""
  let n := q.num.natAbs
  let d := q.den
  if d = 1 then sign ++ toString n
  else
    let k := max (factorCount 2 d d) (factorCount 5 d d)
    if (q * (10 : ℚ) ^ k).den = 1 then
      sign ++ withPoint (toString (n * 10 ^ k / d)) k
    else
      sign ++ toString n ++ "/" ++ toString d

mutual

/-- JavaScript ToString on a JSON.parse value: arrays join their
elements with commas (Array.prototype.toString), plain objects give
"[object Object]". -/
def jsonToString : Json → String
  | .null => "null"
  | .bool b => if b then "true" else "false"
  | .num q => ratToString q
  | .str s => s
  | .arr elems => String.intercalate "," (jsonListToStrings elems)
  | .obj _ => "[object Object]"

/-- Element rendering inside Array.prototype.join: null becomes "". -/
def jsonElemToString : Json → String
  | .null => ""
  | j => jsonToString j

/-- Renders every array element. -/
def jsonListToStrings : List Json → List String
  | [] => []
  | j :: rest => jsonElemToString j :: jsonListToStrings rest

end

/-- JavaScript ToNumber on a JSON.parse value: null is 0, booleans are
0/1, strings go through the string-numeric grammar, arrays convert via
their joined string (ToPrimitive), plain objects give NaN (their
primitive form "[object Object]" is not numeric). -/
def toNumberJson : Json → JSNum
  | .null => .num 0
  | .bool b => .num (if b then 1 else 0)
  | .num q => .num q
  | .str s => strToNumber s
  | .arr elems => strToNumber (jsonToString (.arr elems))
  | .obj _ => .nan

/-- ToNumber on a property-access result (undefined is NaN). -/
def toNumberV : JSValue → JSNum
  | .undefined => .nan
  | .val j => toNumberJson j

/-- ToString on a property-access result. -/
def jsToStringV : JSValue → String
  | .undefined => "undefined"
  | .val j => jsonToString j

/-- Containment of `pat` as a contiguous run of `s` (character lists). -/
def hasSub : List Char → List Char → Bool
  | [], pat => pat.isEmpty
  | c :: rest, pat => pat.isPrefixOf (c :: rest) || hasSub rest pat

/-- JavaScript String.prototype.includes: substring containment,
case-sensitive (the empty pattern is contained in every string). -/
def strIncludes (s pat : String) : Bool :=
  hasSub s.toList pat.toList

/-- Metafield text handed to JSON.parse.  JSON.parse is a host
primitive; it is modelled by its contract: well-formed text carries the
value it denotes, malformed text makes JSON.parse throw a SyntaxError.
The raw text is kept so distinct inputs stay distinct. -/
inductive JsonText where
  | malformed (raw : String) : JsonText
  | wellFormed (raw : String) (value : Json) : JsonText

/-- Model of JSON.parse on a `JsonText`. -/
def jsonParse : JsonText → Except JSError Json
  | .malformed raw => .error (.syntaxError raw)
  | .wellFormed _ value => .ok value

/-- One entry of input.paymentMethods (the host supplies id and name as
strings, in checkout display order). -/
structure PaymentMethod where
  id : String
  name : String
deriving DecidableEq

/-- Operation returned by the function; this program only ever builds
the move operation. -/
inductive Operation where
  | move (index : Nat) (paymentMethodId : String) : Operation
deriving DecidableEq

/-- FunctionResult: the operations list returned to the host. -/
structure FunctionResult where
  operations : List Operation
deriving DecidableEq

/-- NO_CHANGES constant of the source: an empty operations list. -/
def NO_CHANGES : FunctionResult := ⟨[]⟩

/-- Input of the decision function: the optional configuration
metafield text (input?.paymentCustomization?.metafield?.value — none
covers every missing link of the optional chain and a null value), the
optional cart total string (input.cart.cost.totalAmount.amount), and
the payment methods in host order. -/
structure FunctionInput where
  metafieldValue : Option JsonText
  totalAmount : Option String
  paymentMethods : List PaymentMethod

/-- Configuration parse step of the source (lines 29-31):
JSON.parse(input?.paymentCustomization?.metafield?.value ?? "\x7b\x7d");
a missing metafield parses the two-character object literal, giving the
empty object. -/
def parseConfiguration (input : FunctionInput) : Except JSError Json :=
  match input.metafieldValue with
  | none => .ok (Json.obj [])
  | some t => jsonParse t

/-- Decision function: the default export of the rule function source.
The two falsy tests mirror the short-circuit disjunction
!configuration.paymentMethodName || !configuration.cartTotal; the
console.error diagnostic on the threshold branch is a side effect with
no bearing on the returned value and is omitted. -/
def decisionFunction (input : FunctionInput) : Except JSError FunctionResult :=
  match parseConfiguration input with
  | .error e => .error e
  | .ok configuration =>
    match getProp configuration "paymentMethodName" with
    | .error e => .error e
    | .ok nameVal =>
      if truthy nameVal = false then .ok NO_CHANGES
      else
        match getProp configuration "cartTotal" with
        | .error e => .error e
        | .ok cartTotalVal =>
          if truthy cartTotalVal = false then .ok NO_CHANGES
          else
            let cartTotal := parseFloat (input.totalAmount.getD "0.0")
            if jsGt cartTotal (toNumberV cartTotalVal) then .ok NO_CHANGES
            else
              match input.paymentMethods.find?
                  (fun m => strIncludes m.name (jsToStringV nameVal)) with
              | none => .ok NO_CHANGES
              | some movePaymentMethod =>
                .ok ⟨[.move 0 movePaymentMethod.id]⟩

/-- One entry of a GraphQL userErrors list. -/
structure UserError where
  message : String
deriving DecidableEq

/-- JavaScript value passed to handleUserError: the source passes either
a userErrors array (first call: createResult.userErrors) or, by a slip,
a whole mutation-result object (second call: the metafieldsSet result,
which has metafields and userErrors fields but no length property). -/
inductive HandlerArg where
  | errorsArray (userErrors : List UserError) : HandlerArg
  | resultObject (metafields : List String) (userErrors : List UserError) : HandlerArg

/-- HTTP response of the endpoint model: status code plus the error
message when the body is of the shape sent by res.send with an error
(200 responses of this endpoint send an empty body). -/
structure HttpResponse where
  status : Nat
  errorBody : Option String
deriving DecidableEq

/-- handleUserError of src/web/index.js: when the argument is truthy and
its length property is a positive number it sends HTTP 500 with the
space-joined messages and returns true (modelled as some response);
otherwise it returns false (none).  Arrays and objects are always
truthy; a plain result object has no length property, so for it
`userErrors.length > 0` compares undefined with 0, which is false, and
the function falls through to none without sending anything. -/
def handleUserError : HandlerArg → Option HttpResponse
  | .errorsArray userErrors =>
    if 0 < userErrors.length then
      some ⟨500, some (String.intercalate " " (userErrors.map UserError.message))⟩
    else none
  | .resultObject _ _ => none

/-- Names of the two GraphQL mutations the create endpoint can issue. -/
inductive MutationCall where
  | paymentCustomizationCreate : MutationCall
  | metafieldsSet : MutationCall
deriving DecidableEq

/-- Response body data of the paymentCustomizationCreate mutation: the
created record's id (none models a null paymentCustomization) and the
userErrors list. -/
structure CreateResult where
  paymentCustomization : Option String
  userErrors : List UserError

/-- Response body data of the metafieldsSet mutation. -/
structure MetafieldsSetResult where
  metafields : List String
  userErrors : List UserError

/-- Handler of POST /api/paymentCustomization/create, modelled on the
non-throwing path of the GraphQL client: the two mutation responses are
supplied as oracles and the returned list records which mutations were
actually issued, in order.  Accessing createResult.paymentCustomization.id
when the record is null throws a TypeError (uncaught by the handler's
GraphqlQueryError-only catch).  The second handleUserError call receives
the whole metafieldsSet result object, exactly as the source does. -/
def runCreateHandler (createResult : CreateResult)
    (metafieldResult : MetafieldsSetResult) :
    Except JSError (List MutationCall × HttpResponse) :=
  let calls := [MutationCall.paymentCustomizationCreate]
  match handleUserError (.errorsArray createResult.userErrors) with
  | some resp => .ok (calls, resp)
  | none =>
    match createResult.paymentCustomization with
    | none => .error (.typeError "id")
    | some _customizationId =>
      let calls := calls ++ [MutationCall.metafieldsSet]
      match handleUserError
          (.resultObject metafieldResult.metafields metafieldResult.userErrors) with
      | some resp => .ok (calls, resp)
      | none => .ok (calls, ⟨200, none⟩)

/-- find? returns the entry at the first index whose predicate holds. -/
theorem find?_eq_get_of_first {α : Type} (p : α → Bool) :
    ∀ (l : List α) (i : Nat) (hi : i < l.length),
      p (l.get ⟨i, hi⟩) = true →
      (∀ j (hj : j < i), p (l.get ⟨j, Nat.lt_trans hj hi⟩) = false) →
      l.find? p = some (l.get ⟨i, hi⟩)
  | [], i, hi, _, _ => absurd hi (by simp)
  | a :: t, 0, _, hp, _ => by
      simpa using List.find?_cons_of_pos t hp
  | a :: t, i + 1, hi, hp, hmin => by
      have ha : p a = false := hmin 0 (Nat.succ_pos i)
      have ht := find?_eq_get_of_first p t i (Nat.lt_of_succ_lt_succ hi)
        (by simpa using hp)
        (fun j hj => by simpa using hmin (j + 1) (Nat.succ_lt_succ hj))
      rw [List.find?_cons_of_neg _ (by simp [ha])]
      simpa using ht

/-- Claim C1: with a present configuration (non-empty name string,
non-zero numeric threshold), a parsed cart total that does not exceed
the threshold, and a first matching entry at index i (every earlier
entry does not match), the decision function returns exactly the single
operation moving that entry's id to index 0. -/
theorem decision_moves_first_match
    (input : FunctionInput) (cfg : Json) (pname : String) (ct : ℚ)
    (i : Nat) (hi : i < input.paymentMethods.length)
    (hcfg : parseConfiguration input = .ok cfg)
    (hname : getProp cfg "paymentMethodName" = .ok (.val (.str pname)))
    (hne : pname ≠ "")
    (hct : getProp cfg "cartTotal" = .ok (.val (.num ct)))
    (hct0 : ct ≠ 0)
    (hle : jsGt (parseFloat (input.totalAmount.getD "0.0")) (.num ct) = false)
    (hmatch : strIncludes (input.paymentMethods.get ⟨i, hi⟩).name pname = true)
    (hfirst : ∀ j (hj : j < i),
      strIncludes (input.paymentMethods.get ⟨j, Nat.lt_trans hj hi⟩).name pname
        = false) :
    decisionFunction input =
      .ok ⟨[.move 0 (input.paymentMethods.get ⟨i, hi⟩).id]⟩ := by
  have hfind := find?_eq_get_of_first
    (fun m => strIncludes m.name (jsToStringV (.val (.str pname))))
    input.paymentMethods i hi (by simpa [jsToStringV, jsonToString] using hmatch)
    (fun j hj => by simpa [jsToStringV, jsonToString] using hfirst j hj)
  simp only [decisionFunction, hcfg, hname, hct, truthy, truthyJson,
    toNumberV, toNumberJson, hle, if_neg hne, if_neg hct0, hfind]
  simp

/-- Configuration of the spec's Scenario A: name "COD", threshold 100. -/
def cfgScenarioA : Json :=
  Json.obj [("paymentMethodName", Json.str "COD"), ("cartTotal", Json.num 100)]

/-- Scenario A input: cart total "50.00", two methods, second matches. -/
def inputScenarioA : FunctionInput :=
  ⟨some (JsonText.wellFormed "scenario-a" cfgScenarioA), some "50.00",
    [⟨"gid://1", "Credit Card"⟩, ⟨"gid://2", "Cash on Delivery (COD)"⟩]⟩

/-- Witness for C1 at Scenario A: the second method is the first (and
only) match and its id is moved to index 0. -/
theorem decision_moves_first_match_witness :
    decisionFunction inputScenarioA = .ok ⟨[.move 0 "gid://2"]⟩ :=
  decision_moves_first_match inputScenarioA cfgScenarioA "COD" 100 1
    (by decide) rfl rfl (by decide) rfl (by decide)
    (by with_unfolding_all rfl) (by with_unfolding_all rfl)
    (fun j hj =>
      match j, hj with
      | 0, _ => by with_unfolding_all rfl)

/-- Claim C2: with a present configuration (truthy name, non-zero
numeric threshold), a parsed cart total strictly greater than the
threshold yields the empty operations list, whatever the payment
methods are. -/
theorem decision_empty_when_total_exceeds
    (input : FunctionInput) (cfg : Json) (nameVal : JSValue) (ct : ℚ)
    (hcfg : parseConfiguration input = .ok cfg)
    (hname : getProp cfg "paymentMethodName" = .ok nameVal)
    (hnt : truthy nameVal = true)
    (hct : getProp cfg "cartTotal" = .ok (.val (.num ct)))
    (hct0 : ct ≠ 0)
    (hgt : jsGt (parseFloat (input.totalAmount.getD "0.0")) (.num ct) = true) :
    decisionFunction input = .ok NO_CHANGES := by
  simp only [decisionFunction, hcfg, hname, hct, hnt, truthy, truthyJson,
    toNumberV, toNumberJson, hgt, if_neg hct0]
  simp

/-- Scenario B input: same configuration, cart total "150.00". -/
def inputScenarioB : FunctionInput :=
  ⟨some (JsonText.wellFormed "scenario-a" cfgScenarioA), some "150.00",
    [⟨"gid://1", "Credit Card"⟩, ⟨"gid://2", "Cash on Delivery (COD)"⟩]⟩

/-- Witness for C2 at Scenario B: 150 exceeds 100, empty result. -/
theorem decision_empty_when_total_exceeds_witness :
    decisionFunction inputScenarioB = .ok NO_CHANGES :=
  decision_empty_when_total_exceeds inputScenarioB cfgScenarioA
    (.val (.str "COD")) 100 rfl rfl (by decide) rfl (by decide)
    (by with_unfolding_all rfl)

/-- Claim C3: when the parsed cart total equals the threshold exactly,
a matching method still yields the move operation (the comparison is
strict-greater, so equality qualifies). -/
theorem decision_moves_at_threshold_boundary
    (input : FunctionInput) (cfg : Json) (pname : String) (ct : ℚ)
    (hcfg : parseConfiguration input = .ok cfg)
    (hname : getProp cfg "paymentMethodName" = .ok (.val (.str pname)))
    (hne : pname ≠ "")
    (hct : getProp cfg "cartTotal" = .ok (.val (.num ct)))
    (hct0 : ct ≠ 0)
    (heq : parseFloat (input.totalAmount.getD "0.0") = .num ct)
    (hmem : ∃ m ∈ input.paymentMethods, strIncludes m.name pname = true) :
    ∃ pid, decisionFunction input = .ok ⟨[.move 0 pid]⟩ := by
  have hgt : jsGt (JSNum.num ct) (JSNum.num ct) = false := by simp [jsGt]
  obtain ⟨m, hm, hpm⟩ := hmem
  have hsome : (input.paymentMethods.find?
      (fun m => strIncludes m.name (jsToStringV (.val (.str pname))))).isSome :=
    List.find?_isSome.mpr ⟨m, hm, by simpa [jsToStringV, jsonToString] using hpm⟩
  obtain ⟨m2, hm2⟩ := Option.isSome_iff_exists.mp hsome
  refine ⟨m2.id, ?_⟩
  simp only [decisionFunction, hcfg, hname, hct, truthy, truthyJson,
    toNumberV, toNumberJson, heq, hgt, if_neg hne, if_neg hct0, hm2]
  simp

/-- Scenario D input: same configuration, cart total "100.00", equal to
the threshold. -/
def inputScenarioD : FunctionInput :=
  ⟨some (JsonText.wellFormed "scenario-a" cfgScenarioA), some "100.00",
    [⟨"gid://1", "Credit Card"⟩, ⟨"gid://2", "Cash on Delivery (COD)"⟩]⟩

/-- Witness for C3 at Scenario D: cart total equal to the threshold
still moves the matching method. -/
theorem decision_moves_at_threshold_boundary_witness :
    ∃ pid, decisionFunction inputScenarioD = .ok ⟨[.move 0 pid]⟩ :=
  decision_moves_at_threshold_boundary inputScenarioD cfgScenarioA "COD" 100
    rfl rfl (by decide) rfl (by decide) (by with_unfolding_all rfl)
    ⟨⟨"gid://2", "Cash on Delivery (COD)"⟩, by decide,
      by with_unfolding_all rfl⟩

/-- Property access on any non-null JSON value succeeds. -/
theorem getProp_ok_of_ne_null (cfg : Json) (k : String)
    (h : cfg ≠ Json.null) : ∃ v, getProp cfg k = .ok v := by
  cases cfg
  · exact absurd rfl h
  all_goals exact ⟨_, rfl⟩

/-- Claim C4: when the parsed configuration has a falsy
paymentMethodName or a falsy cartTotal, the function treats the
configuration as absent and returns the empty operations list,
regardless of the cart total and the payment methods. -/
theorem decision_empty_when_config_absent
    (input : FunctionInput) (cfg : Json)
    (hcfg : parseConfiguration input = .ok cfg)
    (h : (∃ v, getProp cfg "paymentMethodName" = .ok v ∧ truthy v = false) ∨
         (∃ v, getProp cfg "cartTotal" = .ok v ∧ truthy v = false)) :
    decisionFunction input = .ok NO_CHANGES := by
  rcases h with ⟨v, hv, htr⟩ | ⟨v, hv, htr⟩
  · simp [decisionFunction, hcfg, hv, htr]
  · have hnn : cfg ≠ Json.null := by
      intro h0
      subst h0
      simp [getProp] at hv
    obtain ⟨nv, hnv⟩ := getProp_ok_of_ne_null cfg "paymentMethodName" hnn
    by_cases hm : truthy nv = false
    · simp [decisionFunction, hcfg, hnv, hm]
    · simp [decisionFunction, hcfg, hnv, hm, hv, htr]

/-- Configuration with an empty payment method name (falsy) and a
non-zero threshold. -/
def cfgEmptyName : Json :=
  Json.obj [("paymentMethodName", Json.str ""), ("cartTotal", Json.num 50)]

/-- Witness for C4: empty name, configuration treated as absent even
though the cart total (10) is under the threshold (50) and a method
list is supplied. -/
theorem decision_empty_when_config_absent_witness :
    decisionFunction ⟨some (.wellFormed "cfg-empty-name" cfgEmptyName),
      some "10.00", [⟨"gid://1", "Credit Card"⟩]⟩ = .ok NO_CHANGES :=
  decision_empty_when_config_absent _ cfgEmptyName rfl
    (Or.inl ⟨.val (.str ""), rfl, rfl⟩)

/-- Claim C5: present configuration, cart total within the threshold,
but no method name contains the configured substring: the result is the
empty operations list. -/
theorem decision_empty_when_no_match
    (input : FunctionInput) (cfg : Json) (pname : String) (ct : ℚ)
    (hcfg : parseConfiguration input = .ok cfg)
    (hname : getProp cfg "paymentMethodName" = .ok (.val (.str pname)))
    (hne : pname ≠ "")
    (hct : getProp cfg "cartTotal" = .ok (.val (.num ct)))
    (hct0 : ct ≠ 0)
    (hle : jsGt (parseFloat (input.totalAmount.getD "0.0")) (.num ct) = false)
    (hno : ∀ m ∈ input.paymentMethods, strIncludes m.name pname = false) :
    decisionFunction input = .ok NO_CHANGES := by
  have hfind : input.paymentMethods.find?
      (fun m => strIncludes m.name (jsToStringV (.val (.str pname)))) = none :=
    List.find?_eq_none.mpr
      (fun m hm => by simp [jsToStringV, jsonToString, hno m hm])
  simp only [decisionFunction, hcfg, hname, hct, truthy, truthyJson,
    toNumberV, toNumberJson, hle, if_neg hne, if_neg hct0, hfind]
  simp

/-- Witness for C5: only "Credit Card" is offered, which does not
contain "COD"; cart total 50 is within the threshold 100. -/
theorem decision_empty_when_no_match_witness :
    decisionFunction ⟨some (.wellFormed "scenario-a" cfgScenarioA),
      some "50.00", [⟨"gid://1", "Credit Card"⟩]⟩ = .ok NO_CHANGES :=
  decision_empty_when_no_match _ cfgScenarioA "COD" 100 rfl rfl (by decide)
    rfl (by decide) (by with_unfolding_all rfl)
    (fun m hm => by
      simp at hm
      subst hm
      with_unfolding_all rfl)

/-- Counterexample to C6: on a malformed metafield value the decision
function does not degrade to the empty operations list, it propagates
the JSON.parse SyntaxError. -/
theorem decision_raises_on_malformed_metafield :
    decisionFunction ⟨some (.malformed "not json"), some "50.00",
      [⟨"gid://1", "Credit Card"⟩]⟩ = .error (.syntaxError "not json") := rfl

/-- Claim C6 as amended: the decision function raises exactly on a
metafield value that is malformed JSON (SyntaxError of JSON.parse) or
that parses to JSON null (TypeError of the property access); for every
input whose configuration parses to a non-null value, every failure
path degrades to a returned result. -/
theorem decision_never_raises_on_nonnull_parse
    (input : FunctionInput) (cfg : Json)
    (hcfg : parseConfiguration input = .ok cfg)
    (hnn : cfg ≠ Json.null) :
    ∃ r, decisionFunction input = .ok r := by
  obtain ⟨nv, hnv⟩ := getProp_ok_of_ne_null cfg "paymentMethodName" hnn
  obtain ⟨cv, hcv⟩ := getProp_ok_of_ne_null cfg "cartTotal" hnn
  by_cases h1 : truthy nv = false
  · exact ⟨NO_CHANGES, by simp [decisionFunction, hcfg, hnv, h1]⟩
  · by_cases h2 : truthy cv = false
    · exact ⟨NO_CHANGES, by simp [decisionFunction, hcfg, hnv, hcv, h1, h2]⟩
    · by_cases h3 : jsGt (parseFloat (input.totalAmount.getD "0.0"))
          (toNumberV cv) = true
      · exact ⟨NO_CHANGES,
          by simp [decisionFunction, hcfg, hnv, hcv, h1, h2, h3]⟩
      · cases hfind : input.paymentMethods.find?
            (fun m => strIncludes m.name (jsToStringV nv)) with
        | none => exact ⟨NO_CHANGES,
            by simp [decisionFunction, hcfg, hnv, hcv, h1, h2, h3, hfind]⟩
        | some m => exact ⟨⟨[.move 0 m.id]⟩,
            by simp [decisionFunction, hcfg, hnv, hcv, h1, h2, h3, hfind]⟩

/-- Witness for the amended C6 at a missing metafield (configuration
parses to the empty object). -/
theorem decision_never_raises_on_nonnull_parse_witness :
    ∃ r, decisionFunction ⟨none, some "20.00", [⟨"gid://1", "Card"⟩]⟩
      = .ok r :=
  decision_never_raises_on_nonnull_parse _ (Json.obj []) rfl
    (fun h => Json.noConfusion h)

/-- Configuration with a negative threshold, used to separate an
unparseable amount (NaN) from the amount "0.0". -/
def cfgNegThreshold : Json :=
  Json.obj [("paymentMethodName", Json.str "Cash"), ("cartTotal", Json.num (-1))]

/-- Counterexample to C7: parseFloat yields NaN (not 0.0) on an
unparseable amount, and with threshold -1 the input with amount
"not-a-number" produces the move operation while the same input with
amount "0.0" produces the empty list: unparseable amounts do not behave
like "0.0" for every configuration. -/
theorem parse_default_differs_on_unparseable_amount :
    parseFloat "not-a-number" = .nan ∧
    decisionFunction ⟨some (.wellFormed "neg" cfgNegThreshold),
      some "not-a-number", [⟨"gid://1", "Cash"⟩]⟩
      = .ok ⟨[.move 0 "gid://1"]⟩ ∧
    decisionFunction ⟨some (.wellFormed "neg" cfgNegThreshold),
      some "0.0", [⟨"gid://1", "Cash"⟩]⟩ = .ok NO_CHANGES :=
  ⟨by with_unfolding_all rfl, by with_unfolding_all rfl,
    by with_unfolding_all rfl⟩

/-- Claim C7 as amended: the amount defaults to "0.0" only when it is
missing; an unparseable amount parses to NaN, which exceeds no
threshold, so it behaves identically to "0.0" whenever the configured
cartTotal is non-negative (the counterexample shows they differ at a
negative threshold). -/
theorem parse_amount_default_amended
    (mfv : Option JsonText) (methods : List PaymentMethod) (a : String)
    (cfg : Json) (ct : ℚ)
    (hnan : parseFloat a = .nan)
    (hcfg : parseConfiguration ⟨mfv, some a, methods⟩ = .ok cfg)
    (hct : getProp cfg "cartTotal" = .ok (.val (.num ct)))
    (h0 : 0 ≤ ct) :
    decisionFunction ⟨mfv, some a, methods⟩ =
      decisionFunction ⟨mfv, some "0.0", methods⟩ ∧
    decisionFunction ⟨mfv, none, methods⟩ =
      decisionFunction ⟨mfv, some "0.0", methods⟩ := by
  refine ⟨?_, rfl⟩
  have hcfg2 : parseConfiguration ⟨mfv, some "0.0", methods⟩ = .ok cfg := hcfg
  have hnn : cfg ≠ Json.null := by
    intro h
    subst h
    simp [getProp] at hct
  obtain ⟨nv, hnv⟩ := getProp_ok_of_ne_null cfg "paymentMethodName" hnn
  have hz : parseFloat "0.0" = JSNum.num 0 := by with_unfolding_all rfl
  have hga : jsGt (parseFloat a) (toNumberV (.val (.num ct))) = false := by
    simp [hnan, jsGt]
  have hgz : jsGt (parseFloat "0.0") (toNumberV (.val (.num ct))) = false := by
    simp [hz, jsGt, toNumberV, toNumberJson, not_lt.mpr h0]
  simp [decisionFunction, hcfg, hcfg2, hnv, hct, hga, hgz]

/-- Configuration with name "Cash" and positive threshold 5. -/
def cfgPosThreshold : Json :=
  Json.obj [("paymentMethodName", Json.str "Cash"), ("cartTotal", Json.num 5)]

/-- Witness for the amended C7 at threshold 5: the unparseable amount
"oops" and the missing amount both behave like "0.0". -/
theorem parse_amount_default_amended_witness :
    decisionFunction ⟨some (.wellFormed "pos" cfgPosThreshold), some "oops",
      [⟨"gid://1", "Cash"⟩]⟩ =
      decisionFunction ⟨some (.wellFormed "pos" cfgPosThreshold), some "0.0",
        [⟨"gid://1", "Cash"⟩]⟩ ∧
    decisionFunction ⟨some (.wellFormed "pos" cfgPosThreshold), none,
      [⟨"gid://1", "Cash"⟩]⟩ =
      decisionFunction ⟨some (.wellFormed "pos" cfgPosThreshold), some "0.0",
        [⟨"gid://1", "Cash"⟩]⟩ :=
  parse_amount_default_amended (some (.wellFormed "pos" cfgPosThreshold))
    [⟨"gid://1", "Cash"⟩] "oops" cfgPosThreshold 5
    (by with_unfolding_all rfl) rfl rfl (by norm_num)

/-- Claim C10: a negative numeric cartTotal (with a non-empty name) is
truthy, so the configuration is not treated as absent, and any cart
total that parses to a non-negative number strictly exceeds the
negative threshold, giving the empty operations list. -/
theorem negative_threshold_not_absent
    (input : FunctionInput) (cfg : Json) (pname : String) (ct q : ℚ)
    (hcfg : parseConfiguration input = .ok cfg)
    (hname : getProp cfg "paymentMethodName" = .ok (.val (.str pname)))
    (hne : pname ≠ "")
    (hct : getProp cfg "cartTotal" = .ok (.val (.num ct)))
    (hneg : ct < 0)
    (hq : parseFloat (input.totalAmount.getD "0.0") = .num q)
    (hq0 : 0 ≤ q) :
    truthy (.val (.num ct)) = true ∧ decisionFunction input = .ok NO_CHANGES := by
  have hct0 : ct ≠ 0 := ne_of_lt hneg
  refine ⟨by simp [truthy, truthyJson, hct0], ?_⟩
  have hgt : jsGt (parseFloat (input.totalAmount.getD "0.0"))
      (JSNum.num ct) = true := by
    simp [hq, jsGt]
    exact lt_of_lt_of_le hneg hq0
  simp only [decisionFunction, hcfg, hname, hct, truthy, truthyJson,
    toNumberV, toNumberJson, hgt, if_neg hne, if_neg hct0]
  simp

/-- Configuration with a negative threshold -5 and non-empty name. -/
def cfgMinusFive : Json :=
  Json.obj [("paymentMethodName", Json.str "Cash"), ("cartTotal", Json.num (-5))]

/-- Witness for C10: threshold -5, cart total "10.00", a matching
method exists, yet the result is empty because 10 exceeds -5. -/
theorem negative_threshold_not_absent_witness :
    truthy (.val (.num (-5))) = true ∧
    decisionFunction ⟨some (.wellFormed "minus5" cfgMinusFive), some "10.00",
      [⟨"gid://1", "Cash"⟩]⟩ = .ok NO_CHANGES :=
  negative_threshold_not_absent _ cfgMinusFive "Cash" (-5) 10 rfl rfl
    (by decide) rfl (by norm_num) (by with_unfolding_all rfl) (by norm_num)

/-- Claim C9: when the first mutation's response carries user errors,
the handler sends the 500 response built from them and only the first
mutation was issued: metafieldsSet is never attempted. -/
theorem first_mutation_error_short_circuits
    (createResult : CreateResult) (metafieldResult : MetafieldsSetResult)
    (h : createResult.userErrors ≠ []) :
    runCreateHandler createResult metafieldResult =
      .ok ([MutationCall.paymentCustomizationCreate],
        ⟨500, some (String.intercalate " "
          (createResult.userErrors.map UserError.message))⟩) := by
  have hl : 0 < createResult.userErrors.length := List.length_pos.mpr h
  simp [runCreateHandler, handleUserError, hl]

/-- Witness for C9: one user error on the create mutation; the second
mutation does not appear in the issued-call list. -/
theorem first_mutation_error_short_circuits_witness :
    runCreateHandler ⟨some "gid://shopify/PaymentCustomization/1", [⟨"bad"⟩]⟩
      ⟨[], []⟩ =
      .ok ([MutationCall.paymentCustomizationCreate], ⟨500, some "bad"⟩) :=
  first_mutation_error_short_circuits _ _ (by simp)

/-- Evaluation for C8 at the failing input: the create mutation
succeeds, the metafieldsSet mutation returns a user error "boom", yet
the handler responds HTTP 200 with an empty body, because the second
handleUserError call receives the whole result object (its length is
undefined) instead of its userErrors array. -/
theorem second_mutation_error_gives_200 :
    runCreateHandler ⟨some "gid://shopify/PaymentCustomization/1", []⟩
      ⟨[], [⟨"boom"⟩]⟩ =
      .ok ([MutationCall.paymentCustomizationCreate,
        MutationCall.metafieldsSet], ⟨200, none⟩) := rfl
